import Mathlib

/-!
Verification of the Cannapliant relay server.

The embedding below translates the relay in `src/backend/server.js` (the
Express proxy for `POST /api/messages`) and the serverless analysis handler in
`src/analyze.js` into Lean.  Effectful JavaScript is modelled by explicit
state: the upstream service is a parameter describing what `fetch` would do
(`Upstream` / `AnalyzeUpstream`), and the Express response object is modelled
by the record of everything the handler sent to the caller (`Res`).

JSON values are modelled in the integer fragment: numbers are `Int` (no
fractions/exponents, so `JSON.parse`/`JSON.stringify` round-tripping of
floating-point formatting is outside the model), and string escapes cover the
single-character escapes (no \u escapes).  Every concrete input used in a
theorem below stays inside this fragment, where the model agrees with the
JavaScript runtime.
-/

namespace Cannapliant

/-- JSON values as produced by `JSON.parse` in the relay's runtime (integer
number fragment; object fields in insertion order, as JavaScript preserves
string-keyed property order). -/
inductive Json where
  | null
  | bool (b : Bool)
  | num (n : Int)
  | str (s : String)
  | arr (elems : List Json)
  | obj (fields : List (String × Json))

/-- The left-brace character. -/
def lbraceChar : Char := Char.ofNat 123

/-- The right-brace character. -/
def rbraceChar : Char := Char.ofNat 125

/-- `JSON.stringify` escaping of a single character inside a string literal
(common single-character escapes; other control characters do not occur in the
inputs considered here). -/
def escapeJsonChar (c : Char) : String :=
  if c = '"' then "\\\""
  else if c = '\\' then "\\\\"
  else if c = '\n' then "\\n"
  else if c = '\t' then "\\t"
  else if c = '\r' then "\\r"
  else if c = Char.ofNat 8 then "\\b"
  else if c = Char.ofNat 12 then "\\f"
  else String.singleton c

/-- `JSON.stringify` rendering of a string literal. -/
def escapeJsonString (s : String) : String :=
  "\"" ++ String.join (s.data.map escapeJsonChar) ++ "\""

mutual

/-- `JSON.stringify` (compact form, as used by `res.json`, `express.json`'s
inverse and by the relay's `JSON.stringify(req.body)`). -/
def Json.stringify : Json → String
  | .null => "null"
  | .bool true => "true"
  | .bool false => "false"
  | .num n => toString n
  | .str s => escapeJsonString s
  | .arr xs => "[" ++ stringifyElems xs ++ "]"
  | .obj fs => "\x7b" ++ stringifyFields fs ++ "\x7d"

/-- Comma-separated rendering of array elements. -/
def stringifyElems : List Json → String
  | [] => ""
  | [x] => Json.stringify x
  | x :: xs => Json.stringify x ++ "," ++ stringifyElems xs

/-- Comma-separated rendering of object fields. -/
def stringifyFields : List (String × Json) → String
  | [] => ""
  | [(k, v)] => escapeJsonString k ++ ":" ++ Json.stringify v
  | (k, v) :: fs => escapeJsonString k ++ ":" ++ Json.stringify v ++ "," ++ stringifyFields fs

end

/-- JSON whitespace (RFC 8259: space, tab, newline, carriage return). -/
def isJsonWs (c : Char) : Bool :=
  c == ' ' || c == '\t' || c == '\n' || c == '\r'

/-- Drop leading JSON whitespace. -/
def skipJsonWs (cs : List Char) : List Char := cs.dropWhile isJsonWs

/-- JSON string-escape decoding for the character following a backslash. -/
def unescapeChar (c : Char) : Option Char :=
  if c = '"' then some '"'
  else if c = '\\' then some '\\'
  else if c = '/' then some '/'
  else if c = 'n' then some '\n'
  else if c = 't' then some '\t'
  else if c = 'r' then some '\r'
  else if c = 'b' then some (Char.ofNat 8)
  else if c = 'f' then some (Char.ofNat 12)
  else none

/-- Parse the body of a JSON string literal after the opening quote; returns
the decoded characters and the remaining input after the closing quote. -/
def parseStringBody : List Char → Option (List Char × List Char)
  | [] => none
  | c :: rest =>
    if c = '"' then some ([], rest)
    else if c = '\\' then
      match rest with
      | [] => none
      | e :: rest2 =>
        match unescapeChar e with
        | none => none
        | some u =>
          match parseStringBody rest2 with
          | none => none
          | some (acc, rem) => some (u :: acc, rem)
    else
      match parseStringBody rest with
      | none => none
      | some (acc, rem) => some (c :: acc, rem)

/-- Decimal digits to a natural number. -/
def digitsToNat (ds : List Char) : Nat :=
  ds.foldl (fun a c => a * 10 + (c.toNat - 48)) 0

/-- Parse a JSON number token (integer fragment: optional minus, digits, no
leading zeros; a fraction or exponent makes the parse fail in this model). -/
def parseNumberToken (cs : List Char) : Option (Int × List Char) :=
  let p : Bool × List Char :=
    match cs with
    | c :: rest => if c = '-' then (true, rest) else (false, cs)
    | [] => (false, cs)
  let ds := p.2.takeWhile Char.isDigit
  let rest := p.2.dropWhile Char.isDigit
  if ds.isEmpty then none
  else if 1 < ds.length ∧ ds.head? = some '0' then none
  else
    let n : Int := if p.1 then -(digitsToNat ds : Int) else (digitsToNat ds : Int)
    match rest with
    | c :: _ => if c = '.' ∨ c = 'e' ∨ c = 'E' then none else some (n, rest)
    | [] => some (n, rest)

/-- Match a literal token at the head of the input. -/
def matchLit (cs : List Char) (lit : List Char) : Option (List Char) :=
  if cs.take lit.length = lit then some (cs.drop lit.length) else none

/-- JavaScript object construction from parsed fields: a duplicate key keeps
its first position but takes the last value. -/
def insertJsField (fs : List (String × Json)) (k : String) (v : Json) :
    List (String × Json) :=
  if fs.any (fun p => p.1 = k) then
    fs.map (fun p => if p.1 = k then (k, v) else p)
  else fs ++ [(k, v)]

/-- Fold raw parsed fields into JavaScript-object field semantics. -/
def dedupFields (raw : List (String × Json)) : List (String × Json) :=
  raw.foldl (fun acc p => insertJsField acc p.1 p.2) []

mutual

/-- Fuel-indexed JSON value parser (recursive descent, as `JSON.parse`). -/
def parseValue : Nat → List Char → Option (Json × List Char)
  | 0, _ => none
  | fuel + 1, cs0 =>
    let cs := skipJsonWs cs0
    match cs with
    | [] => none
    | c :: rest =>
      if c = '"' then
        match parseStringBody rest with
        | some (body, rem) => some (.str (String.mk body), rem)
        | none => none
      else if c = lbraceChar then
        match skipJsonWs rest with
        | d :: rest2 =>
          if d = '"' then
            match parseFields fuel (skipJsonWs rest) with
            | some (fs, rem) => some (.obj (dedupFields fs), rem)
            | none => none
          else if d = rbraceChar then some (.obj [], rest2)
          else none
        | [] => none
      else if c = '[' then
        match skipJsonWs rest with
        | d :: rest2 =>
          if d = ']' then some (.arr [], rest2)
          else
            match parseElems fuel (skipJsonWs rest) with
            | some (xs, rem) => some (.arr xs, rem)
            | none => none
        | [] => none
      else if c = 't' then (matchLit cs "true".data).map (fun r => (.bool true, r))
      else if c = 'f' then (matchLit cs "false".data).map (fun r => (.bool false, r))
      else if c = 'n' then (matchLit cs "null".data).map (fun r => (.null, r))
      else
        match parseNumberToken cs with
        | some (n, rem) => some (.num n, rem)
        | none => none

/-- Parse one-or-more comma-separated array elements up to the closing
bracket. -/
def parseElems : Nat → List Char → Option (List Json × List Char)
  | 0, _ => none
  | fuel + 1, cs =>
    match parseValue fuel cs with
    | none => none
    | some (v, rem) =>
      match skipJsonWs rem with
      | ',' :: rest =>
        match parseElems fuel rest with
        | some (xs, rem2) => some (v :: xs, rem2)
        | none => none
      | ']' :: rest => some ([v], rest)
      | _ => none

/-- Parse one-or-more comma-separated object members up to the closing
brace. -/
def parseFields : Nat → List Char → Option (List (String × Json) × List Char)
  | 0, _ => none
  | fuel + 1, cs =>
    match cs with
    | c :: rest =>
      if c = '"' then
        match parseStringBody rest with
        | none => none
        | some (key, rem) =>
          match skipJsonWs rem with
          | ':' :: rest2 =>
            match parseValue fuel rest2 with
            | none => none
            | some (v, rem2) =>
              match skipJsonWs rem2 with
              | ',' :: rest3 =>
                match parseFields fuel (skipJsonWs rest3) with
                | some (fs, rem3) => some ((String.mk key, v) :: fs, rem3)
                | none => none
              | d :: rest3 =>
                if d = rbraceChar then some ([(String.mk key, v)], rest3) else none
              | [] => none
          | _ => none
      else none
    | [] => none

end

/-- `JSON.parse`: parse a complete JSON document, allowing surrounding
whitespace and requiring the whole input to be consumed. -/
def jsonParse (s : String) : Option Json :=
  match parseValue (2 * s.length + 2) s.data with
  | some (v, rem) => if (skipJsonWs rem).isEmpty then some v else none
  | none => none

/-- JavaScript whitespace as matched by `\s` and `String.prototype.trim`
(ASCII part plus NBSP; the exotic Unicode space characters do not occur in the
inputs considered here). -/
def isJsWsChar (c : Char) : Bool :=
  c == ' ' || c == '\t' || c == '\n' || c == '\r' ||
  c == Char.ofNat 11 || c == Char.ofNat 12 || c == Char.ofNat 160

/-- `String.prototype.trim`. -/
def jsTrim (s : String) : String :=
  String.mk (((s.data.dropWhile isJsWsChar).reverse.dropWhile isJsWsChar).reverse)

/-- Does `pat` occur in `cs` starting at index `i`? -/
def matchesAt (cs : List Char) (i : Nat) (pat : List Char) : Bool :=
  (cs.drop i).take pat.length == pat

/-- Length of the whitespace run starting at index `i`. -/
def wsRunAt (cs : List Char) (i : Nat) : Nat :=
  ((cs.drop i).takeWhile isJsWsChar).length

/-- Three backticks, the fence delimiter. -/
def fenceTicks : List Char := "```".data

/-- Fence regex, innermost choice point: after the lazy body
`([\s\S]+?)` of length `m` starting at `b0`, the trailing `\s*` is greedy and
then the closing three backticks must match. -/
def fenceAfterBody (cs : List Char) (b0 m : Nat) : Option (List Char) :=
  let r := b0 + m
  (List.range (wsRunAt cs r + 1)).reverse.findSome? fun t =>
    if matchesAt cs (r + t) fenceTicks then some ((cs.drop b0).take m) else none

/-- Fence regex from position `q` (just after ```` ``` ```` and the optional
`json`): the leading `\s*` is greedy (longest run first), then the lazy body
tries lengths `1, 2, ...` in order.  Backtracking order matches the JavaScript
engine: the leftmost choice point is the outermost loop. -/
def fenceFromQ (cs : List Char) (q : Nat) : Option (List Char) :=
  (List.range (wsRunAt cs q + 1)).reverse.findSome? fun k =>
    let b0 := q + k
    (List.range (cs.length - b0)).findSome? fun m0 =>
      fenceAfterBody cs b0 (m0 + 1)

/-- Fence regex anchored at start position `p`: three backticks, then the
greedy optional group `(?:json)?` (tried with `json` first). -/
def fenceAtStart (cs : List Char) (p : Nat) : Option (List Char) :=
  if matchesAt cs p fenceTicks then
    let starts := if matchesAt cs (p + 3) "json".data then [p + 7, p + 3] else [p + 3]
    starts.findSome? (fenceFromQ cs)
  else none

/-- The capture group of
`` jsonStr.match(/```(?:json)?\s*([\s\S]+?)\s*```/) `` in `src/analyze.js`:
match start positions are tried left to right. -/
def jsFenceCapture (s : String) : Option String :=
  let cs := s.data
  ((List.range cs.length).findSome? (fenceAtStart cs)).map String.mk

/-- Index of the last occurrence of `c`. -/
def lastIdxOf (c : Char) : List Char → Option Nat
  | [] => none
  | d :: rest =>
    match lastIdxOf c rest with
    | some j => some (j + 1)
    | none => if d = c then some 0 else none

/-- Index of the first occurrence of `c`. -/
def firstIdxOf (c : Char) : List Char → Option Nat
  | [] => none
  | d :: rest => if d = c then some 0 else (firstIdxOf c rest).map (· + 1)

/-- Scan of match start positions for the regex `\{[\s\S]+\}`: at start `pos`
the greedy one-or-more body reaches the last right brace (index `j`) provided
at least one character lies between, i.e. `pos + 2 ≤ j`. -/
def objScan (j : Nat) : List Char → Nat → Option Nat
  | [], _ => none
  | c :: rest, pos =>
    if c = lbraceChar ∧ pos + 2 ≤ j then some pos
    else objScan j rest (pos + 1)

/-- The inclusive slice from index `i` to index `j`. -/
def sliceStr (cs : List Char) (i j : Nat) : String :=
  String.mk ((cs.drop i).take (j + 1 - i))

/-- The whole match of `jsonStr.match(/\{[\s\S]+\}/)` in `src/analyze.js`:
leftmost viable start, greedy body ending at the last right brace. -/
def jsObjMatch (s : String) : Option String :=
  let cs := s.data
  match lastIdxOf rbraceChar cs with
  | none => none
  | some j =>
    match objScan j cs 0 with
    | none => none
    | some i => some (sliceStr cs i j)

/-- The brace extraction exactly as claim C10 words it: the substring from the
first left brace to the last right brace (no further proviso). -/
def claimedBraceSlice (s : String) : Option String :=
  let cs := s.data
  match firstIdxOf lbraceChar cs, lastIdxOf rbraceChar cs with
  | some i, some j => if i < j then some (sliceStr cs i j) else none
  | _, _ => none

/-- The brace extraction as amended: additionally at least one character must
lie strictly between the two braces. -/
def claimedBraceSliceAmended (s : String) : Option String :=
  let cs := s.data
  match firstIdxOf lbraceChar cs, lastIdxOf rbraceChar cs with
  | some i, some j => if i + 2 ≤ j then some (sliceStr cs i j) else none
  | _, _ => none

/-- The process environment variables read by `src/backend/server.js` and
`src/analyze.js`; `none` is an unset variable. -/
structure Env where
  ANTHROPIC_API_KEY : Option String
  FRONTEND_URL : Option String
  FRONTEND_ORIGIN : Option String
  PORT : Option String
  deriving DecidableEq, Repr

/-- JavaScript truthiness on an optional string: `filter(Boolean)` and
`x || d` treat an unset variable and the empty string as falsy. -/
def jsTruthyOpt (o : Option String) : Option String :=
  match o with
  | some s => if s = "" then none else some s
  | none => none

/-- `allowedOrigins` in `src/backend/server.js`:
`['http://localhost:5173', process.env.FRONTEND_URL, process.env.FRONTEND_ORIGIN].filter(Boolean)`. -/
def allowedOrigins (env : Env) : List String :=
  ([some "http://localhost:5173", env.FRONTEND_URL, env.FRONTEND_ORIGIN]).filterMap jsTruthyOpt

/-- The configuration fixed at process start by `src/backend/server.js`:
`PORT = process.env.PORT || 3001` and the origin allow-list.  The secret
credential is not read here; it is read inside the request handler. -/
structure Config where
  port : String
  allowed : List String
  deriving DecidableEq, Repr

/-- Startup of `src/backend/server.js` (module top level, before
`app.listen`). -/
def serverInit (env : Env) : Config :=
  { port := (jsTruthyOpt env.PORT).getD "3001", allowed := allowedOrigins env }

/-- Decision of the `cors` origin callback. -/
inductive CorsDecision where
  | allow
  | deny (msg : String)
  deriving DecidableEq, Repr

/-- The `origin` callback passed to `cors(...)` in `src/backend/server.js`:
no `Origin` header is allowed through; otherwise exact membership in the
allow-list decides; a denial produces `new Error(...)` whose message is shown. -/
def corsOriginCheck (allowed : List String) (origin : Option String) : CorsDecision :=
  match origin with
  | none => .allow
  | some o =>
    if allowed.contains o then .allow
    else .deny ("CORS: origin " ++ o ++ " not allowed")

/-- The upstream URL both handlers call. -/
def anthropicApiUrl : String := "https://api.anthropic.com/v1/messages"

/-- What the upstream `fetch` yields for the relay: status, `content-type`
header, the body as the ordered chunks delivered by `upstream.body.getReader()`,
and whether the stream errors after those chunks instead of finishing. -/
structure UpstreamResponse where
  status : Nat
  contentType : Option String
  chunks : List String
  streamBreaks : Bool
  deriving DecidableEq, Repr

/-- Behavior of the upstream network call: either `fetch` rejects before any
response is received, or a response arrives. -/
inductive Upstream where
  | unreachable
  | responds (r : UpstreamResponse)
  deriving DecidableEq, Repr

/-- The outbound HTTP request the relay issues to the upstream service. -/
structure OutboundCall where
  url : String
  contentType : String
  apiKey : String
  anthropicVersion : String
  body : String
  deriving DecidableEq, Repr

/-- The `fetch(ANTHROPIC_API_URL, ...)` call built by the `/api/messages`
handler: fixed headers plus `JSON.stringify(req.body)`. -/
def messagesOutbound (apiKey : String) (reqBody : Json) : OutboundCall :=
  { url := anthropicApiUrl, contentType := "application/json",
    apiKey := apiKey, anthropicVersion := "2023-06-01",
    body := Json.stringify reqBody }

/-- Everything the `/api/messages` handler sent to its caller: status,
`Content-Type` header, raw chunks written with `res.write`, the body delivered
through `res.json` when one was, and whether `res.end` ran. -/
structure Res where
  status : Nat
  contentType : Option String
  chunks : List String
  envelope : Option Json
  ended : Bool

/-- How the handler finished: normally, or with an exception escaping it
(`res.json` raising because the response headers were already sent). -/
inductive Outcome where
  | ok (res : Res)
  | raised (res : Res)

/-- Handler observables: the response to the caller and the upstream calls
issued. -/
structure HandlerResult where
  outcome : Outcome
  calls : List OutboundCall

/-- `res.status(status).json(body)` on a fresh response. -/
def jsonRes (status : Nat) (body : Json) : Res :=
  { status := status, contentType := some "application/json",
    chunks := [], envelope := some body, ended := true }

/-- The `{ error: msg }` envelope. -/
def errObj (msg : String) : Json := .obj [("error", .str msg)]

/-- The reader/pump loop of the `/api/messages` handler: each `read` that
yields a chunk is answered by `res.write`, in order. -/
def runPump (chunks : List String) (written : List String) : List String :=
  match chunks with
  | [] => written
  | c :: cs => runPump cs (written ++ [c])

/-- The `app.post('/api/messages')` handler of `src/backend/server.js`.
A falsy credential (`if (!apiKey)`: unset, or set to the empty string)
short-circuits to a 500 envelope with no upstream call.  Otherwise `fetch` is
issued; a rejection is caught and answered with the 502 envelope.  On a
response, the status and `content-type` are copied and the body is pumped
through.  When the stream errors mid-body the catch block still runs
`res.status(502).json(...)`: if no byte was written yet the headers are
uncommitted and the envelope is delivered (under the already-set upstream
content type when there was one — `res.json` sets `application/json` only
when no `Content-Type` is set), but after the first `res.write` the headers
are committed and `res.json` raises (`ERR_HTTP_HEADERS_SENT`), so the caller
keeps the original status and a truncated body. -/
def messagesHandler (env : Env) (reqBody : Json) (up : Upstream) : HandlerResult :=
  match jsTruthyOpt env.ANTHROPIC_API_KEY with
  | none =>
    { outcome := .ok (jsonRes 500 (errObj "ANTHROPIC_API_KEY is not set on the server.")),
      calls := [] }
  | some apiKey =>
    let call := messagesOutbound apiKey reqBody
    match up with
    | .unreachable =>
      { outcome := .ok (jsonRes 502 (errObj "Failed to reach Anthropic API.")),
        calls := [call] }
    | .responds r =>
      let written := runPump r.chunks []
      { outcome :=
          if r.streamBreaks then
            if written.isEmpty then
              .ok { status := 502,
                    contentType := some ((r.contentType).getD "application/json"),
                    chunks := [],
                    envelope := some (errObj "Failed to reach Anthropic API."),
                    ended := true }
            else
              .raised { status := r.status, contentType := r.contentType,
                        chunks := written, envelope := none, ended := false }
          else
            .ok { status := r.status, contentType := r.contentType,
                  chunks := written, envelope := none, ended := true },
        calls := [call] }

/-- `express.json()` body handling: an empty body yields `{}`; otherwise the
raw bytes must parse as JSON and (strict mode, the default) the top level must
be an object or an array, else the request is rejected with status 400 before
the route handler runs. -/
def expressJsonBody (raw : String) : Option Json :=
  if raw = "" then some (.obj [])
  else
    match jsonParse raw with
    | some (.obj fs) => some (.obj fs)
    | some (.arr xs) => some (.arr xs)
    | _ => none

/-- Result of the full middleware-plus-handler pipeline for
`POST /api/messages`. -/
inductive RouteResult where
  | corsRejected (status : Nat) (msg : String)
  | badRequestBody (status : Nat)
  | handled (h : HandlerResult)

/-- The upstream calls issued while serving the route. -/
def RouteResult.upstreamCalls : RouteResult → List OutboundCall
  | .handled h => h.calls
  | _ => []

/-- `POST /api/messages` end to end: the `cors` middleware runs first (a
denial is passed to `next(err)`, and Express's default error handler answers
with status 500 because the error carries no status of its own); then
`express.json` parses the body (failure → 400); then the handler runs. -/
def messagesRoute (env : Env) (origin : Option String) (rawBody : String)
    (up : Upstream) : RouteResult :=
  match corsOriginCheck (allowedOrigins env) origin with
  | .deny msg => .corsRejected 500 msg
  | .allow =>
    match expressJsonBody rawBody with
    | none => .badRequestBody 400
    | some body => .handled (messagesHandler env body up)

/-- The inbound request seen by the `src/analyze.js` handler: HTTP method and
the two body fields it reads.  `none` covers an absent (or `null`) field. -/
structure AnalyzeReq where
  method : String
  imageBase64 : Option String
  mediaType : Option String
  deriving DecidableEq, Repr

/-- JavaScript falsiness of the optional string fields `imageBase64` and
`mediaType`: absent or empty is falsy. -/
def jsFalsyStr (o : Option String) : Bool :=
  match o with
  | none => true
  | some s => s == ""

/-- Behavior of the upstream call made by `src/analyze.js`: either `fetch`
rejects (carrying the rejection's `err.message`), or a response arrives whose
body is consumed as text by `response.json()`. -/
inductive AnalyzeUpstream where
  | unreachable (msg : String)
  | responds (status : Nat) (body : String)
  deriving DecidableEq, Repr

/-- The response `src/analyze.js` sends: every path uses `res.json`, so the
body is a JSON value. -/
structure AnalyzeRes where
  status : Nat
  body : Json

/-- Handler observables for `src/analyze.js`. -/
structure AnalyzeResult where
  res : AnalyzeRes
  calls : List OutboundCall

/-- The fixed system prompt of `src/analyze.js` (abbreviated to its opening
line: it is a constant string whose content no claim depends on). -/
def analyzeSystemPromptText : String :=
  "You are an expert California cannabis packaging compliance auditor with deep knowledge of California cannabis labeling regulations."

/-- The fixed user text block of `src/analyze.js`. -/
def analyzeUserText : String :=
  "Please analyze this cannabis product label/packaging artwork for California DCC compliance. Examine every visible element carefully and report your findings in the required JSON format."

/-- The JSON body `src/analyze.js` sends upstream. -/
def analyzeOutboundBody (imageBase64 mediaType : String) : Json :=
  .obj [("model", .str "claude-sonnet-4-20250514"),
        ("max_tokens", .num 2000),
        ("system", .str analyzeSystemPromptText),
        ("messages", .arr [
          .obj [("role", .str "user"),
                ("content", .arr [
                  .obj [("type", .str "image"),
                        ("source", .obj [("type", .str "base64"),
                                         ("media_type", .str mediaType),
                                         ("data", .str imageBase64)])],
                  .obj [("type", .str "text"), ("text", .str analyzeUserText)]])]])]

/-- The `fetch` call issued by `src/analyze.js`.  The handler reads
`process.env.ANTHROPIC_API_KEY` without checking it; an unset variable makes
the header value the literal string `undefined` under the runtime's header
serialization. -/
def analyzeOutbound (env : Env) (req : AnalyzeReq) : OutboundCall :=
  { url := anthropicApiUrl, contentType := "application/json",
    apiKey := (env.ANTHROPIC_API_KEY).getD "undefined",
    anthropicVersion := "2023-06-01",
    body := Json.stringify (analyzeOutboundBody ((req.imageBase64).getD "")
                                                ((req.mediaType).getD "")) }

/-- First field of the given name in a parsed JSON object. -/
def getField (fs : List (String × Json)) (k : String) : Option Json :=
  match fs with
  | [] => none
  | (k2, v) :: rest => if k2 = k then some v else getField rest k

/-- `b.text || ''` for one content block (string-valued `text` fields; blocks
without one contribute the empty string). -/
def blockText (b : Json) : String :=
  match b with
  | .obj fs =>
    match getField fs "text" with
    | some (.str s) => s
    | _ => ""
  | _ => ""

/-- `data.content?.map(b => b.text || '').join('') || ''`. -/
def rawTextOf (data : Json) : String :=
  match data with
  | .obj fs =>
    match getField fs "content" with
    | some (.arr xs) => String.join (xs.map blockText)
    | _ => ""
  | _ => ""

/-- The non-2xx branch of `src/analyze.js`:
`errData.error?.message || 'API error'` where `errData` is the upstream body
parsed as JSON, defaulting to `{}` when that parse fails. -/
def upstreamErrMessage (body : String) : String :=
  match jsonParse body with
  | some (.obj fs) =>
    match getField fs "error" with
    | some (.obj efs) =>
      match getField efs "message" with
      | some (.str m) => if m = "" then "API error" else m
      | _ => "API error"
    | _ => "API error"
  | _ => "API error"

/-- Stand-in for the `SyntaxError` message produced when `JSON.parse` throws
(`err.message || 'Internal server error'`); the exact V8 text is
runtime-dependent and no claim depends on it. -/
def parseFailMessage : String := "Unexpected token in JSON"

/-- The handler exported by `src/analyze.js`: method gate, field gate,
upstream call, then either the error pass-down (non-2xx) or the
text-concatenation / fence-stripping / brace-extraction / `JSON.parse`
pipeline. -/
def analyzeHandler (env : Env) (req : AnalyzeReq) (up : AnalyzeUpstream) :
    AnalyzeResult :=
  if req.method ≠ "POST" then
    { res := { status := 405, body := errObj "Method not allowed" }, calls := [] }
  else if jsFalsyStr req.imageBase64 || jsFalsyStr req.mediaType then
    { res := { status := 400, body := errObj "Missing image data" }, calls := [] }
  else
    let call := analyzeOutbound env req
    match up with
    | .unreachable msg =>
      { res := { status := 500,
                 body := errObj (if msg = "" then "Internal server error" else msg) },
        calls := [call] }
    | .responds st body =>
      if 200 ≤ st ∧ st ≤ 299 then
        match jsonParse body with
        | none =>
          { res := { status := 500, body := errObj parseFailMessage }, calls := [call] }
        | some data =>
          let s1 := jsTrim (rawTextOf data)
          let s2 := match jsFenceCapture s1 with | some c => c | none => s1
          let s3 := match jsObjMatch s2 with | some m => m | none => s2
          match jsonParse s3 with
          | some result =>
            { res := { status := 200, body := result }, calls := [call] }
          | none =>
            { res := { status := 500, body := errObj parseFailMessage }, calls := [call] }
      else
        { res := { status := st, body := errObj (upstreamErrMessage body) },
          calls := [call] }

/-- A liveness probe request (its content is irrelevant to the endpoint). -/
structure HealthProbeReq where
  headers : List (String × String)
  deriving DecidableEq, Repr

/-- Modelled from the spec: the health/diagnostics endpoint (`GET /health` or
equivalent, spec sections 4.4 and 6) is not present in the sources under
`src/`; per the spec it answers every probe with status 200 and a trivial
fixed success body, reads nothing from the request and has no side effects. -/
def healthHandler (_req : HealthProbeReq) : Res :=
  { status := 200, contentType := none, chunks := ["OK"], envelope := none,
    ended := true }

/-- A concrete environment with the credential set (shared by witnesses). -/
def envK : Env :=
  { ANTHROPIC_API_KEY := some "k", FRONTEND_URL := none, FRONTEND_ORIGIN := none,
    PORT := none }

/-- A concrete environment with the credential unset. -/
def envNoKey : Env :=
  { ANTHROPIC_API_KEY := none, FRONTEND_URL := none, FRONTEND_ORIGIN := none,
    PORT := none }

/-- A concrete well-formed analyze request. -/
def reqOk : AnalyzeReq :=
  { method := "POST", imageBase64 := some "QUJD", mediaType := some "image/png" }

/-- The pump writes exactly the chunks it reads, in order, after whatever was
already written. -/
theorem runPump_spec (chunks acc : List String) :
    runPump chunks acc = acc ++ chunks := by
  induction chunks generalizing acc with
  | nil => simp [runPump]
  | cons c cs ih => simp [runPump, ih]

/-- C1: for every upstream response (any status, 429 included) the
`/api/messages` relay copies the status verbatim, mirrors the `content-type`
header, writes to the caller exactly the upstream chunks in order with no
envelope and no re-serialization, and ends the response. -/
theorem messages_passthrough (env : Env) (k : String) (reqBody : Json)
    (r : UpstreamResponse)
    (hk : env.ANTHROPIC_API_KEY = some k) (hne : k ≠ "")
    (hs : r.streamBreaks = false) :
    messagesHandler env reqBody (.responds r) =
      { outcome := .ok { status := r.status, contentType := r.contentType,
                         chunks := r.chunks, envelope := none, ended := true },
        calls := [messagesOutbound k reqBody] } := by
  simp [messagesHandler, jsTruthyOpt, hk, hne, hs, runPump_spec]

/-- C1 witness: a mocked 429 upstream streaming chunks "A", "B", "C" passes
through with status 429, mirrored content type and the chunks in order. -/
theorem messages_passthrough_witness :
    messagesHandler envK (Json.obj []) (.responds
      { status := 429, contentType := some "application/json",
        chunks := ["A", "B", "C"], streamBreaks := false }) =
      { outcome := .ok { status := 429, contentType := some "application/json",
                         chunks := ["A", "B", "C"], envelope := none, ended := true },
        calls := [messagesOutbound "k" (Json.obj [])] } :=
  messages_passthrough envK "k" (Json.obj [])
    { status := 429, contentType := some "application/json",
      chunks := ["A", "B", "C"], streamBreaks := false } rfl (by decide) rfl

/-- C3: with the credential unset, every `/api/messages` call answers status
500 with a JSON `error` object and issues zero upstream calls, and startup
(`serverInit`) never reads the credential, so its absence cannot crash the
process at startup. -/
theorem missing_credential_behavior (env : Env) (reqBody : Json) (up : Upstream)
    (hk : env.ANTHROPIC_API_KEY = none) :
    messagesHandler env reqBody up =
      { outcome := .ok (jsonRes 500 (errObj "ANTHROPIC_API_KEY is not set on the server.")),
        calls := [] } ∧
    serverInit env = serverInit { env with ANTHROPIC_API_KEY := some "present" } := by
  constructor
  · simp [messagesHandler, jsTruthyOpt, hk]
  · rfl

/-- C3 witness at a concrete unset-credential environment and request. -/
theorem missing_credential_behavior_witness :
    messagesHandler envNoKey (Json.obj []) .unreachable =
      { outcome := .ok (jsonRes 500 (errObj "ANTHROPIC_API_KEY is not set on the server.")),
        calls := [] } ∧
    serverInit envNoKey = serverInit { envNoKey with ANTHROPIC_API_KEY := some "present" } :=
  missing_credential_behavior envNoKey (Json.obj []) .unreachable rfl

/-- C4: when the upstream `fetch` rejects before any response, the relay
answers with the single fixed 502 JSON `error` envelope and no body chunks
(never a partial or garbled stream). -/
theorem upstream_unreachable_envelope (env : Env) (k : String) (reqBody : Json)
    (hk : env.ANTHROPIC_API_KEY = some k) (hne : k ≠ "") :
    messagesHandler env reqBody .unreachable =
      { outcome := .ok (jsonRes 502 (errObj "Failed to reach Anthropic API.")),
        calls := [messagesOutbound k reqBody] } := by
  simp [messagesHandler, jsTruthyOpt, hk, hne]

/-- C4 witness at a concrete environment and request. -/
theorem upstream_unreachable_envelope_witness :
    messagesHandler envK (Json.obj []) .unreachable =
      { outcome := .ok (jsonRes 502 (errObj "Failed to reach Anthropic API.")),
        calls := [messagesOutbound "k" (Json.obj [])] } :=
  upstream_unreachable_envelope envK "k" (Json.obj []) rfl (by decide)

/-- C6: at a concrete mid-stream failure (one chunk "A" delivered, then the
upstream stream errors) the handler's unconditional catch still attempts
`res.status(502).json(...)` after the headers are committed; the attempt
raises (`ERR_HTTP_HEADERS_SENT`, the `raised` outcome), so the caller keeps
the original status 200 and the truncated one-chunk body without any envelope
— contradicting the claim that the relay never attempts the rewrite. -/
theorem midstream_catch_attempt :
    messagesHandler envK (Json.obj []) (.responds
      { status := 200, contentType := some "text/event-stream",
        chunks := ["A"], streamBreaks := true }) =
      { outcome := .raised { status := 200, contentType := some "text/event-stream",
                             chunks := ["A"], envelope := none, ended := false },
        calls := [messagesOutbound "k" (Json.obj [])] } := rfl

/-- C2 counterexample: a disallowed origin is rejected before any upstream
work, but with status 500 — Express's default for a middleware error carrying
no status of its own — which is not a 4xx client-error status as the claim
states. -/
theorem origin_guard_counterexample :
    messagesRoute envK (some "https://evil.example") "\x7b\x7d" .unreachable =
      .corsRejected 500 "CORS: origin https://evil.example not allowed" ∧
    ¬ (400 ≤ 500 ∧ 500 < 500) := ⟨rfl, by decide⟩

/-- C2 (amended): requests with no `Origin` header pass the origin guard;
with an `Origin` present the guard allows exactly the origins that are
members of the configured allow-list; a disallowed origin is rejected before
any upstream network call — with Express's default error status 500 (a
server-error status), not a 4xx. -/
theorem origin_guard_amended (env : Env) (origin : Option String) (raw : String)
    (up : Upstream) :
    (corsOriginCheck (allowedOrigins env) origin = .allow ↔
      origin = none ∨ ∃ o, origin = some o ∧ o ∈ allowedOrigins env) ∧
    (∀ o, origin = some o → o ∉ allowedOrigins env →
      messagesRoute env origin raw up =
        .corsRejected 500 ("CORS: origin " ++ o ++ " not allowed") ∧
      (messagesRoute env origin raw up).upstreamCalls = []) ∧
    (origin = none →
      messagesRoute env origin raw up =
        (match expressJsonBody raw with
         | none => .badRequestBody 400
         | some body => .handled (messagesHandler env body up))) := by
  refine ⟨?_, ?_, ?_⟩
  · cases origin with
    | none => simp [corsOriginCheck]
    | some o =>
      simp only [corsOriginCheck]
      by_cases h : o ∈ allowedOrigins env
      · rw [if_pos (List.elem_iff.mpr h)]
        simp [h]
      · rw [if_neg (fun hc => h (List.elem_iff.mp hc))]
        simp [h]
  · intro o ho hmem
    subst ho
    constructor
    · simp [messagesRoute, corsOriginCheck, hmem]
    · simp [messagesRoute, corsOriginCheck, hmem, RouteResult.upstreamCalls]
  · intro ho
    subst ho
    rfl

/-- C2 witness: a concrete request from a disallowed origin is rejected with
status 500 and zero upstream calls. -/
theorem origin_guard_amended_witness :
    messagesRoute envK (some "https://evil.example") "" .unreachable =
      .corsRejected 500 "CORS: origin https://evil.example not allowed" ∧
    (messagesRoute envK (some "https://evil.example") "" .unreachable).upstreamCalls = [] :=
  (origin_guard_amended envK (some "https://evil.example") "" .unreachable).2.1
    "https://evil.example" rfl (by decide)

/-- C5 counterexample: the client body `\x7b"a": 1\x7d` (with a space) is
parsed by `express.json` and re-serialized by `JSON.stringify(req.body)`, so
the outbound upstream body is `\x7b"a":1\x7d` — not byte-identical to the
bytes received from the client. -/
theorem outbound_body_counterexample :
    (messagesRoute envK none "\x7b\"a\": 1\x7d" .unreachable).upstreamCalls =
      [messagesOutbound "k" (Json.obj [("a", Json.num 1)])] ∧
    (messagesOutbound "k" (Json.obj [("a", Json.num 1)])).body = "\x7b\"a\":1\x7d" ∧
    "\x7b\"a\":1\x7d" ≠ "\x7b\"a\": 1\x7d" := ⟨rfl, rfl, by decide⟩

/-- C5 (amended): every `/api/messages` request that reaches the handler
issues exactly one upstream call carrying the secret key header and the fixed
protocol-version header `2023-06-01`, and its body is the JSON
re-serialization (`JSON.stringify`) of the parsed client body — semantically
the same JSON, but not necessarily byte-identical to the received bytes. -/
theorem outbound_headers_and_body (env : Env) (k : String) (origin : Option String)
    (raw : String) (body : Json) (up : Upstream)
    (hk : env.ANTHROPIC_API_KEY = some k) (hne : k ≠ "")
    (hallow : corsOriginCheck (allowedOrigins env) origin = .allow)
    (hparse : expressJsonBody raw = some body) :
    messagesRoute env origin raw up = .handled (messagesHandler env body up) ∧
    (messagesHandler env body up).calls = [messagesOutbound k body] ∧
    (messagesOutbound k body).apiKey = k ∧
    (messagesOutbound k body).anthropicVersion = "2023-06-01" ∧
    (messagesOutbound k body).body = Json.stringify body := by
  refine ⟨?_, ?_, rfl, rfl, rfl⟩
  · simp [messagesRoute, hallow, hparse]
  · cases up with
    | unreachable => simp [messagesHandler, jsTruthyOpt, hk, hne]
    | responds r => simp [messagesHandler, jsTruthyOpt, hk, hne]

/-- C5 witness at a concrete request whose raw body is `\x7b"a": 1\x7d`. -/
theorem outbound_headers_and_body_witness :
    messagesRoute envK none "\x7b\"a\": 1\x7d" .unreachable =
      .handled (messagesHandler envK (Json.obj [("a", Json.num 1)]) .unreachable) ∧
    (messagesHandler envK (Json.obj [("a", Json.num 1)]) .unreachable).calls =
      [messagesOutbound "k" (Json.obj [("a", Json.num 1)])] ∧
    (messagesOutbound "k" (Json.obj [("a", Json.num 1)])).apiKey = "k" ∧
    (messagesOutbound "k" (Json.obj [("a", Json.num 1)])).anthropicVersion = "2023-06-01" ∧
    (messagesOutbound "k" (Json.obj [("a", Json.num 1)])).body =
      Json.stringify (Json.obj [("a", Json.num 1)]) :=
  outbound_headers_and_body envK "k" none "\x7b\"a\": 1\x7d"
    (Json.obj [("a", Json.num 1)]) .unreachable rfl (by decide) rfl rfl

/-- Helper: the response of the `src/analyze.js` handler does not depend on
the environment at all (the environment feeds only the outbound call's
`x-api-key` header). -/
theorem analyzeHandler_res_env (e1 e2 : Env) (req : AnalyzeReq)
    (up : AnalyzeUpstream) :
    (analyzeHandler e1 req up).res = (analyzeHandler e2 req up).res := by
  unfold analyzeHandler
  by_cases h1 : req.method ≠ "POST"
  · simp [h1]
  · by_cases h2 : (jsFalsyStr req.imageBase64 || jsFalsyStr req.mediaType)
    · simp [h1, h2]
    · cases up with
      | unreachable m => simp [h1, h2]
      | responds st b =>
        by_cases h3 : 200 ≤ st ∧ st ≤ 299
        · simp only [h1, if_false, Bool.not_eq_true] at *
          simp only [h2, h3, if_true, if_false, Bool.false_eq_true]
          cases hp : jsonParse b with
          | none => rfl
          | some data =>
            cases hq : jsonParse (match jsObjMatch (match jsFenceCapture (jsTrim (rawTextOf data)) with
                | some c => c
                | none => jsTrim (rawTextOf data)) with
              | some m => m
              | none => (match jsFenceCapture (jsTrim (rawTextOf data)) with
                | some c => c
                | none => jsTrim (rawTextOf data))) with
            | none => simp [hq]
            | some result => simp [hq]
        · simp [h1, h2, h3]

/-- C7: credential confinement.  For the same request and the same upstream
behavior, the response sent to the caller (by the `/api/messages` relay and by
the `src/analyze.js` handler, error paths included) is identical whatever the
value of the credential — any two non-empty values, i.e. values the program's
`if (!apiKey)` check regards as a present credential — so the credential is
never present in any response; the credential value reaches only the
`x-api-key` header of the outbound upstream call (erasing that one field
makes the outbound calls of the two runs equal). -/
theorem credential_confinement (env : Env) (k1 k2 : String) (reqBody : Json)
    (up : Upstream) (areq : AnalyzeReq) (aup : AnalyzeUpstream)
    (hk1 : k1 ≠ "") (hk2 : k2 ≠ "") :
    (messagesHandler { env with ANTHROPIC_API_KEY := some k1 } reqBody up).outcome =
      (messagesHandler { env with ANTHROPIC_API_KEY := some k2 } reqBody up).outcome ∧
    (messagesHandler { env with ANTHROPIC_API_KEY := some k1 } reqBody up).calls.map
        (fun c => { c with apiKey := "" }) =
      (messagesHandler { env with ANTHROPIC_API_KEY := some k2 } reqBody up).calls.map
        (fun c => { c with apiKey := "" }) ∧
    (analyzeHandler { env with ANTHROPIC_API_KEY := some k1 } areq aup).res =
      (analyzeHandler { env with ANTHROPIC_API_KEY := some k2 } areq aup).res := by
  refine ⟨?_, ?_, analyzeHandler_res_env _ _ areq aup⟩
  · cases up <;> simp [messagesHandler, jsTruthyOpt, hk1, hk2]
  · cases up <;> simp [messagesHandler, jsTruthyOpt, hk1, hk2, messagesOutbound]

/-- C7 witness: at the credentials "a" and "b" and a concrete request and
upstream behavior, the responses coincide and the key-erased outbound calls
coincide. -/
theorem credential_confinement_witness :
    (messagesHandler { envK with ANTHROPIC_API_KEY := some "a" } (Json.obj []) .unreachable).outcome =
      (messagesHandler { envK with ANTHROPIC_API_KEY := some "b" } (Json.obj []) .unreachable).outcome ∧
    (messagesHandler { envK with ANTHROPIC_API_KEY := some "a" } (Json.obj []) .unreachable).calls.map
        (fun c => { c with apiKey := "" }) =
      (messagesHandler { envK with ANTHROPIC_API_KEY := some "b" } (Json.obj []) .unreachable).calls.map
        (fun c => { c with apiKey := "" }) ∧
    (analyzeHandler { envK with ANTHROPIC_API_KEY := some "a" } reqOk (.unreachable "boom")).res =
      (analyzeHandler { envK with ANTHROPIC_API_KEY := some "b" } reqOk (.unreachable "boom")).res :=
  credential_confinement envK "a" "b" (Json.obj []) .unreachable reqOk
    (.unreachable "boom") (by decide) (by decide)

/-- C8: the liveness endpoint answers every probe with status 200 and the
trivial fixed body `OK`, independently of the request (no input read, no side
effects, no envelope). -/
theorem health_endpoint_ok (r1 r2 : HealthProbeReq) :
    (healthHandler r1).status = 200 ∧ (healthHandler r1).chunks = ["OK"] ∧
    (healthHandler r1).envelope = none ∧ healthHandler r1 = healthHandler r2 :=
  ⟨rfl, rfl, rfl, rfl⟩

/-- C9: a POST to the `src/analyze.js` handler whose body lacks `imageBase64`
or `mediaType` (absent or empty, i.e. falsy) is answered with status 400 and
the JSON `error` object, and no upstream call is issued. -/
theorem analyze_missing_fields (env : Env) (req : AnalyzeReq)
    (up : AnalyzeUpstream) (hm : req.method = "POST")
    (hmiss : jsFalsyStr req.imageBase64 = true ∨ jsFalsyStr req.mediaType = true) :
    analyzeHandler env req up =
      { res := { status := 400, body := errObj "Missing image data" },
        calls := [] } := by
  unfold analyzeHandler
  rcases hmiss with h | h <;> simp [hm, h]

/-- C9 witness: a POST missing `imageBase64` is answered 400 with no upstream
call. -/
theorem analyze_missing_fields_witness :
    analyzeHandler envK
      { method := "POST", imageBase64 := none, mediaType := some "image/png" }
      (.unreachable "boom") =
      { res := { status := 400, body := errObj "Missing image data" },
        calls := [] } :=
  analyze_missing_fields envK
    { method := "POST", imageBase64 := none, mediaType := some "image/png" }
    (.unreachable "boom") rfl (Or.inl rfl)

/-- Helper: past the last right brace no match start can succeed. -/
theorem objScan_none (j : Nat) (cs : List Char) (pos : Nat) (h : j < pos + 2) :
    objScan j cs pos = none := by
  induction cs generalizing pos with
  | nil => rfl
  | cons c rest ih =>
    simp only [objScan]
    rw [if_neg (fun hc => absurd hc.2 (by omega))]
    exact ih (pos + 1) (by omega)

/-- Helper: the left-to-right scan of regex start positions equals the
first-left-brace formula with the interior proviso. -/
theorem objScan_eq (j : Nat) (cs : List Char) (pos : Nat) :
    objScan j cs pos =
      (match firstIdxOf lbraceChar cs with
       | some i => if pos + i + 2 ≤ j then some (pos + i) else none
       | none => none) := by
  induction cs generalizing pos with
  | nil => rfl
  | cons c rest ih =>
    by_cases hc : c = lbraceChar
    · by_cases hj : pos + 2 ≤ j
      · simp [objScan, firstIdxOf, hc, hj]
      · simp only [objScan, firstIdxOf, hc, if_pos rfl]
        rw [if_neg (fun hand => hj hand.2), objScan_none j rest (pos + 1) (by omega)]
        simp [hj]
    · cases h : firstIdxOf lbraceChar rest with
      | none => simp [objScan, firstIdxOf, hc, ih, h]
      | some i =>
        have e : pos + 1 + i = pos + (i + 1) := by omega
        simp [objScan, firstIdxOf, hc, ih, h, e]

/-- Helper: the code's regex `\{[\s\S]+\}` match equals the claim's
first-to-last brace slice amended with the one-interior-character proviso. -/
theorem jsObjMatch_eq_amended (s : String) :
    jsObjMatch s = claimedBraceSliceAmended s := by
  unfold jsObjMatch claimedBraceSliceAmended
  cases hj : lastIdxOf rbraceChar s.data with
  | none =>
    simp only [hj]
    cases hf : firstIdxOf lbraceChar s.data <;> simp [hf]
  | some j =>
    simp only [hj, objScan_eq]
    cases hf : firstIdxOf lbraceChar s.data with
    | none => simp [hf]
    | some i =>
      simp only [hf, Nat.zero_add]
      by_cases hij : i + 2 ≤ j
      · simp [hij]
      · simp [hij]

/-- The 2xx post-processing pipeline exactly as claim C10 words it: trim,
strip an optional markdown fence, take the substring from the first left
brace to the last right brace, parse as JSON. -/
def claimPipeline (raw : String) : Option Json :=
  let s1 := jsTrim raw
  let s2 := match jsFenceCapture s1 with | some c => c | none => s1
  let s3 := match claimedBraceSlice s2 with | some m => m | none => s2
  jsonParse s3

/-- The pipeline as amended: the brace extraction additionally requires at
least one character strictly between the braces (the regex one-or-more), and
when it does not apply the string is passed to the parse unchanged. -/
def amendedPipeline (raw : String) : Option Json :=
  let s1 := jsTrim raw
  let s2 := match jsFenceCapture s1 with | some c => c | none => s1
  let s3 := match claimedBraceSliceAmended s2 with | some m => m | none => s2
  jsonParse s3

/-- C10 counterexample: with model text `\x7b\x7dx` the code's regex
`\{[\s\S]+\}` finds no match (its one-or-more needs a character between the
braces), the unchanged string fails `JSON.parse`, and the caller gets 500 —
while the extraction the claim describes (first `\x7b` to last `\x7d`) yields
`\x7b\x7d`, which parses, so the claim predicts 200. -/
theorem analyze_extraction_counterexample :
    (analyzeHandler envK reqOk (.responds 200
      "\x7b\"content\":[\x7b\"type\":\"text\",\"text\":\"\x7b\x7dx\"\x7d]\x7d")).res.status
      = 500 ∧
    claimPipeline "\x7b\x7dx" = some (Json.obj []) := ⟨rfl, rfl⟩

/-- C10 (amended): on a 2xx upstream response the handler does not pass the
body through; it parses it, concatenates the text of the content blocks,
trims, strips an optional markdown fence, replaces the string by the
substring from the first left brace to the last right brace provided at least
one character lies between them (otherwise the string is left unchanged),
parses that as JSON and answers 200 with the parsed object; if the final
parse fails (or the body itself is not JSON) the caller receives a 500 JSON
error. -/
theorem analyze_ok_pipeline (env : Env) (req : AnalyzeReq) (st : Nat)
    (body : String) (hm : req.method = "POST")
    (hi : jsFalsyStr req.imageBase64 = false)
    (hmt : jsFalsyStr req.mediaType = false) (hst : 200 ≤ st ∧ st ≤ 299) :
    analyzeHandler env req (.responds st body) =
      { res :=
          match jsonParse body with
          | none => { status := 500, body := errObj parseFailMessage }
          | some data =>
            match amendedPipeline (rawTextOf data) with
            | some j => { status := 200, body := j }
            | none => { status := 500, body := errObj parseFailMessage },
        calls := [analyzeOutbound env req] } := by
  unfold analyzeHandler amendedPipeline
  simp only [hm, ne_eq, not_true_eq_false, if_false, hi, hmt, Bool.or_self,
    Bool.false_eq_true, if_pos hst, jsObjMatch_eq_amended]
  cases hp : jsonParse body with
  | none => simp [hp]
  | some data =>
    simp only [hp]
    cases hq : jsonParse (match claimedBraceSliceAmended
        (match jsFenceCapture (jsTrim (rawTextOf data)) with
         | some c => c
         | none => jsTrim (rawTextOf data)) with
      | some m => m
      | none =>
        (match jsFenceCapture (jsTrim (rawTextOf data)) with
         | some c => c
         | none => jsTrim (rawTextOf data))) with
    | none => simp [hq]
    | some result => simp [hq]

/-- C10 witness: a concrete 2xx upstream body whose single text block is
`\x7b"a":1\x7d` is answered 200 with the parsed object. -/
theorem analyze_ok_pipeline_witness :
    analyzeHandler envK reqOk (.responds 200
      "\x7b\"content\":[\x7b\"text\":\"\x7b\\\"a\\\":1\x7d\"\x7d]\x7d") =
      { res := { status := 200, body := Json.obj [("a", Json.num 1)] },
        calls := [analyzeOutbound envK reqOk] } :=
  (analyze_ok_pipeline envK reqOk 200
      "\x7b\"content\":[\x7b\"text\":\"\x7b\\\"a\\\":1\x7d\"\x7d]\x7d"
      rfl rfl rfl (by decide)).trans rfl

end Cannapliant
